import Mathlib

/-!
Shallow embedding of the CueMap TypeScript SDK client
(src/unnamed/part_002, the v0.6.0 sources) in Lean 4.

The embedding follows the TypeScript source line by line:

* `CueMapConfig` / `CueMap.make` model the `CueMap` constructor,
  including JavaScript truthiness of the `||` defaulting operator
  (an empty string and the number 0 are falsy).
* `CueMap.getHeaders` models the private `getHeaders` method,
  including the truthiness tests `if (this.apiKey)` / `if (this.projectId)`.
* `FetchOutcome` is the oracle describing how the underlying `fetch`
  behaves on one invocation: a response arrives (with some status and a
  body that parses to JSON or fails to parse), `fetch` rejects with some
  exception, or the cancellation timer fires first (abort).
* `CueMap.requestRun` models the private `request` method and
  `CueMap.ingestRun` models the transport part of `ingestFile`;
  both record the timer events (start / fire / clear) that the code
  executes on that control path, whether `controller.abort()` ran, and
  which headers were sent.
* `Op` enumerates the public operations, `Op.toReq` the request each
  builds, and `CueMap.runOp` threads the client state explicitly so that
  immutability of the context is a provable statement rather than a
  typing accident.
-/

/-- JSON values as sent in request bodies.  Numbers are modelled as
integers: no claim under scrutiny computes with fractional values. -/
inductive Json where
  | str (s : String)
  | num (n : Int)
  | bool (b : Bool)
  | arr (xs : List Json)
  | obj (fields : List (String × Json))

/-- Lookup of an object key, first occurrence, as JavaScript property
access on the plain objects the SDK builds. -/
def Json.lookup (fields : List (String × Json)) (key : String) : Option Json :=
  match fields with
  | [] => none
  | (k, v) :: rest => if k = key then some v else Json.lookup rest key

/-- Configuration object `CueMapConfig` (all fields optional). -/
structure CueMapConfig where
  url : Option String
  apiKey : Option String
  projectId : Option String
  timeout : Option Nat
deriving DecidableEq, Repr

/-- The empty configuration, the TS default `config = {}`. -/
def CueMapConfig.empty : CueMapConfig := ⟨none, none, none, none⟩

/-- JavaScript truthiness of an optional string: present and non-empty. -/
def truthyStr : Option String → Bool
  | some s => s ≠ ""
  | none => false

/-- JavaScript truthiness of an optional number: present and non-zero. -/
def truthyNat : Option Nat → Bool
  | some n => n ≠ 0
  | none => false

/-- The client context: the four private fields of class `CueMap`. -/
structure CueMap where
  url : String
  apiKey : Option String
  projectId : Option String
  timeout : Nat
deriving DecidableEq, Repr

/-- The `CueMap` constructor: `this.url` is `config.url` defaulted with
`||` to the localhost URL, `this.apiKey = config.apiKey`,
`this.projectId = config.projectId`, and `this.timeout` is
`config.timeout` defaulted with `||` to 30000.  The `||` operator falls
back to the default on any falsy value (absent, empty string, zero). -/
def CueMap.make (config : CueMapConfig) : CueMap :=
  { url := if truthyStr config.url then config.url.getD "" else "http://localhost:8080"
    apiKey := config.apiKey
    projectId := config.projectId
    timeout := if truthyNat config.timeout then config.timeout.getD 0 else 30000 }

/-- The private `getHeaders` method: starts from the
`Content-Type: application/json` entry, then adds `X-API-Key` if
`this.apiKey` is truthy and `X-Project-ID` if `this.projectId` is
truthy, in insertion order. -/
def CueMap.getHeaders (c : CueMap) : List (String × String) :=
  [("Content-Type", "application/json")]
    ++ (match c.apiKey with
        | some k => if k ≠ "" then [("X-API-Key", k)] else []
        | none => [])
    ++ (match c.projectId with
        | some p => if p ≠ "" then [("X-Project-ID", p)] else []
        | none => [])

/-- Header lookup (first match), as reading a key of the plain header
record object. -/
def headerLookup (hs : List (String × String)) (key : String) : Option String :=
  match hs with
  | [] => none
  | (k, v) :: rest => if k = key then some v else headerLookup rest key

/-- The headers `ingestFile` sends: `getHeaders()` followed by the
statement deleting the Content-Type entry of the record. -/
def CueMap.ingestHeaders (c : CueMap) : List (String × String) :=
  (c.getHeaders).filter (fun p => p.1 ≠ "Content-Type")

/-- The client error class `CueMapError`: it carries only a message
string (the class adds a `name` but no kind discriminator). -/
structure CueMapError where
  message : String
deriving DecidableEq, Repr

/-- String conversion of a thrown `CueMapError`, as JavaScript template
interpolation produces it: the name, a colon and a space, then the
message, where the name is `CueMapError`. -/
def CueMapError.toJsString (e : CueMapError) : String :=
  "CueMapError: " ++ e.message

/-- String form of the exception `fetch` rejects with when
`controller.abort()` fired (platform abort error). -/
def abortErrorString : String := "AbortError: This operation was aborted"

/-- Oracle for one invocation of the underlying `fetch`:
either a response arrives with a status and a body (whose JSON parse
succeeds with a value or throws with some exception string), or `fetch`
rejects with an exception of the given string form, or the cancellation
timer fires before any response. -/
inductive FetchOutcome where
  | response (status : Nat) (body : Except String Json)
  | reject (errStr : String)
  | timeout

/-- Success test `response.ok`: status in the 2xx range. -/
def statusOk (status : Nat) : Bool := 200 ≤ status && status ≤ 299

/-- Timer events executed by a transport invocation:
`setTimeout` (with its duration), the timer firing, `clearTimeout`. -/
inductive TimerEv where
  | start (ms : Nat)
  | fire
  | clear
deriving DecidableEq, Repr

/-- Whether a timer is still pending after a sequence of timer events. -/
def timerPending (evs : List TimerEv) : Bool :=
  evs.foldl (fun _ e => match e with
    | TimerEv.start _ => true
    | TimerEv.fire => false
    | TimerEv.clear => false) false

/-- Result of running one transport invocation: the value returned or
error thrown, the timer events on that control path, whether
`controller.abort()` ran, and the headers handed to `fetch`. -/
structure RunResult where
  result : Except CueMapError Json
  timerEvs : List TimerEv
  aborted : Bool
  headersSent : List (String × String)

/-- The private `request` method, for a given fetch outcome.
Control paths of the source:
a 2xx response whose body parses returns the JSON (timer cleared once,
line 112); a 2xx response whose body fails to parse throws from
`response.json()`, the catch clears the timer again and wraps the
exception; a 401 response throws the fixed `Invalid API key` error and
any other non-2xx throws `Request failed: <status>` — both are
`CueMapError`s, so the catch clears the timer and rethrows them
unchanged; a rejected fetch never reaches line 112, the catch clears
the timer once and wraps the exception; a fired timer aborts the
in-flight fetch, which then rejects with the abort exception, wrapped
by the catch. -/
def CueMap.requestRun (c : CueMap) (outcome : FetchOutcome) : RunResult :=
  match outcome with
  | FetchOutcome.response status body =>
      if statusOk status then
        match body with
        | Except.ok j =>
            ⟨Except.ok j, [TimerEv.start c.timeout, TimerEv.clear], false, c.getHeaders⟩
        | Except.error s =>
            ⟨Except.error ⟨"Request failed: " ++ s⟩,
             [TimerEv.start c.timeout, TimerEv.clear, TimerEv.clear], false, c.getHeaders⟩
      else if status = 401 then
        ⟨Except.error ⟨"Invalid API key"⟩,
         [TimerEv.start c.timeout, TimerEv.clear, TimerEv.clear], false, c.getHeaders⟩
      else
        ⟨Except.error ⟨"Request failed: " ++ toString status⟩,
         [TimerEv.start c.timeout, TimerEv.clear, TimerEv.clear], false, c.getHeaders⟩
  | FetchOutcome.reject s =>
      ⟨Except.error ⟨"Request failed: " ++ s⟩,
       [TimerEv.start c.timeout, TimerEv.clear], false, c.getHeaders⟩
  | FetchOutcome.timeout =>
      ⟨Except.error ⟨"Request failed: " ++ abortErrorString⟩,
       [TimerEv.start c.timeout, TimerEv.fire, TimerEv.clear], true, c.getHeaders⟩

/-- The value or error `request` produces, without the bookkeeping. -/
def CueMap.request (c : CueMap) (outcome : FetchOutcome) : Except CueMapError Json :=
  (c.requestRun outcome).result

/-- The transport part of `ingestFile`.  It differs from `request`:
the headers drop `Content-Type`, a non-2xx status (401 included) throws
`Request failed: <status>` with no authentication special case, and the
catch block rewraps every exception — the `CueMapError` thrown for an
error status included, since the catch has no `instanceof` test — as
`Request failed: <string of the exception>`. -/
def CueMap.ingestRun (c : CueMap) (outcome : FetchOutcome) : RunResult :=
  match outcome with
  | FetchOutcome.response status body =>
      if statusOk status then
        match body with
        | Except.ok j =>
            ⟨Except.ok j, [TimerEv.start c.timeout, TimerEv.clear], false, c.ingestHeaders⟩
        | Except.error s =>
            ⟨Except.error ⟨"Request failed: " ++ s⟩,
             [TimerEv.start c.timeout, TimerEv.clear, TimerEv.clear], false, c.ingestHeaders⟩
      else
        ⟨Except.error
           ⟨"Request failed: " ++
             CueMapError.toJsString ⟨"Request failed: " ++ toString status⟩⟩,
         [TimerEv.start c.timeout, TimerEv.clear, TimerEv.clear], false, c.ingestHeaders⟩
  | FetchOutcome.reject s =>
      ⟨Except.error ⟨"Request failed: " ++ s⟩,
       [TimerEv.start c.timeout, TimerEv.clear], false, c.ingestHeaders⟩
  | FetchOutcome.timeout =>
      ⟨Except.error ⟨"Request failed: " ++ abortErrorString⟩,
       [TimerEv.start c.timeout, TimerEv.fire, TimerEv.clear], true, c.ingestHeaders⟩

/-- The value or error the `ingestFile` transport produces. -/
def CueMap.ingestTransport (c : CueMap) (outcome : FetchOutcome) : Except CueMapError Json :=
  (c.ingestRun outcome).result

/-- Arguments of the public `recall` method, in the v0.6.0 signature
order.  Optional parameters are `Option`; `undefined` is `none`. -/
structure RecallArgs where
  queryText : Option String
  cues : Option (List String)
  projects : Option (List String)
  limit : Int
  autoReinforce : Bool
  minIntersection : Option Int
  explain : Bool
  disablePatternCompletion : Bool
  disableSalienceBias : Bool
  disableSystemsConsolidation : Bool

/-- Calling `recall` with only the first four positional arguments:
the TS defaults fill the rest (`autoReinforce = false`,
`minIntersection` undefined, `explain = false`, the three disable
flags `false`). -/
def RecallArgs.withDefaults (queryText : Option String) (cues : Option (List String))
    (projects : Option (List String)) (limit : Int) : RecallArgs :=
  ⟨queryText, cues, projects, limit, false, none, false, false, false, false⟩

/-- The request body `recall` builds.  The object literal lists
`limit`, `auto_reinforce`, `explain` and the three disable flags; then
`cues` is added when the `cues` argument is truthy (any array,
the empty array included), `query_text` when `queryText` is truthy
(a non-empty string), `min_intersection` and `projects` when not
`undefined`. -/
def recallPayload (a : RecallArgs) : List (String × Json) :=
  [("limit", Json.num a.limit),
   ("auto_reinforce", Json.bool a.autoReinforce),
   ("explain", Json.bool a.explain),
   ("disable_pattern_completion", Json.bool a.disablePatternCompletion),
   ("disable_salience_bias", Json.bool a.disableSalienceBias),
   ("disable_systems_consolidation", Json.bool a.disableSystemsConsolidation)]
  ++ (match a.cues with
      | some cs => [("cues", Json.arr (cs.map Json.str))]
      | none => [])
  ++ (match a.queryText with
      | some q => if q ≠ "" then [("query_text", Json.str q)] else []
      | none => [])
  ++ (match a.minIntersection with
      | some m => [("min_intersection", Json.num m)]
      | none => [])
  ++ (match a.projects with
      | some ps => [("projects", Json.arr (ps.map Json.str))]
      | none => [])

/-- Arguments of `recallGrounded`. -/
structure RecallGroundedArgs where
  query : String
  tokenBudget : Int
  limit : Int
  projects : Option (List String)
  disablePatternCompletion : Bool
  disableSalienceBias : Bool
  disableSystemsConsolidation : Bool

/-- The body `recallGrounded` builds: the literal keys, then
`projects` added when the argument is truthy (any array). -/
def recallGroundedPayload (a : RecallGroundedArgs) : List (String × Json) :=
  [("query_text", Json.str a.query),
   ("token_budget", Json.num a.tokenBudget),
   ("limit", Json.num a.limit),
   ("disable_pattern_completion", Json.bool a.disablePatternCompletion),
   ("disable_salience_bias", Json.bool a.disableSalienceBias),
   ("disable_systems_consolidation", Json.bool a.disableSystemsConsolidation)]
  ++ (match a.projects with
      | some ps => [("projects", Json.arr (ps.map Json.str))]
      | none => [])

/-- The public operations of the `CueMap` class, with their arguments. -/
inductive Op where
  | add (content : String) (cues : List String) (metadata : Option (List (String × Json)))
      (disableTemporalChunking : Bool)
  | recall (a : RecallArgs)
  | listProjects
  | deleteProject (projectId : String)
  | addAlias (source : String) (target : String) (weight : Int)
  | getAliases (cue : Option String)
  | mergeAliases (cues : List String) (tgt : String)
  | reinforce (memoryId : String) (cues : List String)
  | get (memoryId : String)
  | stats
  | recallGrounded (a : RecallGroundedArgs)
  | lexiconWire (token : String) (canonical : String)
  | lexiconInspect (cue : String)
  | lexiconGraph
  | lexiconSynonyms (cue : String)
  | lexiconDelete (memoryId : String)
  | ingestUrl (url : String)
  | ingestContent (content : String) (filename : String)
  | ingestFile
  | jobsStatus

/-- The best-effort operations: those whose body is
`try ... return true catch return false`. -/
def Op.isBestEffort : Op → Bool
  | Op.deleteProject _ => true
  | Op.addAlias _ _ _ => true
  | Op.mergeAliases _ _ => true
  | Op.reinforce _ _ => true
  | Op.lexiconDelete _ => true
  | _ => false

/-- An HTTP request as handed to the transport. -/
structure HttpReq where
  method : String
  path : String
  body : Option Json

/-- The request each operation builds (method, path, body), following
each method of the source.  `ingestFile` sends multipart form data,
modelled as no JSON body. -/
def Op.toReq : Op → HttpReq
  | Op.add content cues metadata dtc =>
      ⟨"POST", "/memories",
       some (Json.obj
         [("content", Json.str content),
          ("cues", Json.arr (cues.map Json.str)),
          ("metadata", Json.obj (metadata.getD [])),
          ("disable_temporal_chunking", Json.bool dtc)])⟩
  | Op.recall a => ⟨"POST", "/recall", some (Json.obj (recallPayload a))⟩
  | Op.listProjects => ⟨"GET", "/projects", none⟩
  | Op.deleteProject projectId => ⟨"DELETE", "/projects/" ++ projectId, none⟩
  | Op.addAlias source target weight =>
      ⟨"POST", "/aliases",
       some (Json.obj
         [("from", Json.str source), ("to", Json.str target), ("weight", Json.num weight)])⟩
  | Op.getAliases cue =>
      ⟨"GET",
       (match cue with
        | some c => "/aliases?cue=" ++ c
        | none => "/aliases"), none⟩
  | Op.mergeAliases cues tgt =>
      ⟨"POST", "/aliases/merge",
       some (Json.obj [("cues", Json.arr (cues.map Json.str)), ("to", Json.str tgt)])⟩
  | Op.reinforce memoryId cues =>
      ⟨"PATCH", "/memories/" ++ memoryId ++ "/reinforce",
       some (Json.obj [("cues", Json.arr (cues.map Json.str))])⟩
  | Op.get memoryId => ⟨"GET", "/memories/" ++ memoryId, none⟩
  | Op.stats => ⟨"GET", "/stats", none⟩
  | Op.recallGrounded a =>
      ⟨"POST", "/recall/grounded", some (Json.obj (recallGroundedPayload a))⟩
  | Op.lexiconWire token canonical =>
      ⟨"POST", "/lexicon/wire",
       some (Json.obj [("token", Json.str token), ("canonical", Json.str canonical)])⟩
  | Op.lexiconInspect cue => ⟨"GET", "/lexicon/inspect/" ++ cue, none⟩
  | Op.lexiconGraph => ⟨"GET", "/lexicon/graph", none⟩
  | Op.lexiconSynonyms cue => ⟨"GET", "/lexicon/synonyms/" ++ cue, none⟩
  | Op.lexiconDelete memoryId => ⟨"DELETE", "/lexicon/entry/" ++ memoryId, none⟩
  | Op.ingestUrl url => ⟨"POST", "/ingest/url", some (Json.obj [("url", Json.str url)])⟩
  | Op.ingestContent content filename =>
      ⟨"POST", "/ingest/content",
       some (Json.obj [("content", Json.str content), ("filename", Json.str filename)])⟩
  | Op.ingestFile => ⟨"POST", "/ingest/file", none⟩
  | Op.jobsStatus => ⟨"GET", "/jobs/status", none⟩

/-- The value an operation resolves with. -/
inductive OpValue where
  | raw (j : Json)
  | field (j : Option Json)
  | bool (b : Bool)

/-- Runs one public operation against a fetch outcome, threading the
client state explicitly: the returned context is the state the method
leaves behind.  No method of the source assigns to any field of
`this`, so every branch returns the context it received.  A best-effort
operation wraps the transport call in try/catch and resolves `true` or
`false`; `add` projects the `id` field of the decoded response; every
other operation returns the decoded response (or propagates the thrown
error). -/
def CueMap.runOp (c : CueMap) (op : Op) (outcome : FetchOutcome) :
    (Except CueMapError OpValue) × CueMap :=
  match op with
  | Op.add _ _ _ _ =>
      (match c.request outcome with
       | Except.ok j => (Except.ok (OpValue.field (match j with
           | Json.obj fields => Json.lookup fields "id"
           | _ => none)), c)
       | Except.error e => (Except.error e, c))
  | Op.recall _ =>
      (match c.request outcome with
       | Except.ok j => (Except.ok (OpValue.raw j), c)
       | Except.error e => (Except.error e, c))
  | Op.listProjects =>
      (match c.request outcome with
       | Except.ok j => (Except.ok (OpValue.raw j), c)
       | Except.error e => (Except.error e, c))
  | Op.deleteProject _ =>
      (match c.request outcome with
       | Except.ok _ => (Except.ok (OpValue.bool true), c)
       | Except.error _ => (Except.ok (OpValue.bool false), c))
  | Op.addAlias _ _ _ =>
      (match c.request outcome with
       | Except.ok _ => (Except.ok (OpValue.bool true), c)
       | Except.error _ => (Except.ok (OpValue.bool false), c))
  | Op.getAliases _ =>
      (match c.request outcome with
       | Except.ok j => (Except.ok (OpValue.raw j), c)
       | Except.error e => (Except.error e, c))
  | Op.mergeAliases _ _ =>
      (match c.request outcome with
       | Except.ok _ => (Except.ok (OpValue.bool true), c)
       | Except.error _ => (Except.ok (OpValue.bool false), c))
  | Op.reinforce _ _ =>
      (match c.request outcome with
       | Except.ok _ => (Except.ok (OpValue.bool true), c)
       | Except.error _ => (Except.ok (OpValue.bool false), c))
  | Op.get _ =>
      (match c.request outcome with
       | Except.ok j => (Except.ok (OpValue.raw j), c)
       | Except.error e => (Except.error e, c))
  | Op.stats =>
      (match c.request outcome with
       | Except.ok j => (Except.ok (OpValue.raw j), c)
       | Except.error e => (Except.error e, c))
  | Op.recallGrounded _ =>
      (match c.request outcome with
       | Except.ok j => (Except.ok (OpValue.raw j), c)
       | Except.error e => (Except.error e, c))
  | Op.lexiconWire _ _ =>
      (match c.request outcome with
       | Except.ok j => (Except.ok (OpValue.raw j), c)
       | Except.error e => (Except.error e, c))
  | Op.lexiconInspect _ =>
      (match c.request outcome with
       | Except.ok j => (Except.ok (OpValue.raw j), c)
       | Except.error e => (Except.error e, c))
  | Op.lexiconGraph =>
      (match c.request outcome with
       | Except.ok j => (Except.ok (OpValue.raw j), c)
       | Except.error e => (Except.error e, c))
  | Op.lexiconSynonyms _ =>
      (match c.request outcome with
       | Except.ok j => (Except.ok (OpValue.raw j), c)
       | Except.error e => (Except.error e, c))
  | Op.lexiconDelete _ =>
      (match c.request outcome with
       | Except.ok _ => (Except.ok (OpValue.bool true), c)
       | Except.error _ => (Except.ok (OpValue.bool false), c))
  | Op.ingestUrl _ =>
      (match c.request outcome with
       | Except.ok j => (Except.ok (OpValue.raw j), c)
       | Except.error e => (Except.error e, c))
  | Op.ingestContent _ _ =>
      (match c.request outcome with
       | Except.ok j => (Except.ok (OpValue.raw j), c)
       | Except.error e => (Except.error e, c))
  | Op.ingestFile =>
      (match c.ingestTransport outcome with
       | Except.ok j => (Except.ok (OpValue.raw j), c)
       | Except.error e => (Except.error e, c))
  | Op.jobsStatus =>
      (match c.request outcome with
       | Except.ok j => (Except.ok (OpValue.raw j), c)
       | Except.error e => (Except.error e, c))

/-- The transport an operation goes through: `ingestFile` owns its own
fetch wrapper, every other operation calls the private `request`. -/
def CueMap.transportOf (c : CueMap) (op : Op) (outcome : FetchOutcome) :
    Except CueMapError Json :=
  match op with
  | Op.ingestFile => c.ingestTransport outcome
  | _ => c.request outcome

/-- An item of `proof.selected` in a grounded-recall response
(interface `SelectedItem`).  Numeric scores are modelled as integers;
the projection under scrutiny copies them without computing. -/
structure SelectedItem where
  memory_id : String
  content : String
  score : Int
  intersection_count : Int
  recency_component : Int
  reinforcement_component : Int
  match_integrity : Int
  source : String
  timestamp : String
  estimated_tokens : Int
  why : String
deriving DecidableEq, Repr

/-- An item of `proof.excluded_top` (interface `ExcludedItem`). -/
structure ExcludedItem where
  memory_id : String
  score : Int
  reason : String
deriving DecidableEq, Repr

/-- Interface `GroundingProof`. -/
structure GroundingProof where
  trace_id : String
  query_text : String
  normalized_query : List String
  expanded_cues : List (String × Int)
  token_budget : Int
  selected : List SelectedItem
  excluded_top : List ExcludedItem
deriving DecidableEq, Repr

/-- Interface `RecallGroundedResponse`. -/
structure RecallGroundedResponse where
  verified_context : String
  proof : GroundingProof
  engine_latency_ms : Int
deriving DecidableEq, Repr

/-- The object literal `retrieveGrounded` returns. -/
structure GroundedArtifact where
  verified_context_block : String
  grounding_proof : GroundingProof
  selected_memories : List SelectedItem
deriving DecidableEq, Repr

/-- The result construction of
`CueMapGroundingRetriever.retrieveGrounded`, applied to the decoded
response of `recallGrounded`: the returned object literal with fields
`verified_context_block`, `grounding_proof`, `selected_memories`. -/
def retrieveGroundedAssemble (response : RecallGroundedResponse) : GroundedArtifact :=
  { verified_context_block := response.verified_context
    grounding_proof := response.proof
    selected_memories := response.proof.selected }

/-- The retriever method `retrieveGrounded` end to end over the typed
oracle: the underlying
`recallGrounded` call either resolves with a decoded response or throws
a client error; the retriever assembles on success and propagates the
error otherwise. -/
def retrieveGrounded (call : Except CueMapError RecallGroundedResponse) :
    Except CueMapError GroundedArtifact :=
  match call with
  | Except.ok response => Except.ok (retrieveGroundedAssemble response)
  | Except.error e => Except.error e

/-- C1: FALSE as stated.  On the multipart `ingestFile` path a 401
response does not yield the authentication error: `ingestFile` has no
401 special case, so a 401 yields a request-failure error (further
rewrapped by its catch block), whose message differs from the fixed
authentication message `Invalid API key`. -/
theorem ingestFile_401_not_auth_error :
    (CueMap.make CueMapConfig.empty).ingestTransport
        (FetchOutcome.response 401 (Except.ok (Json.obj []))) =
      Except.error ⟨"Request failed: CueMapError: Request failed: 401"⟩ ∧
    (CueMap.make CueMapConfig.empty).request
        (FetchOutcome.response 401 (Except.ok (Json.obj []))) =
      Except.error ⟨"Invalid API key"⟩ ∧
    ("Request failed: CueMapError: Request failed: 401" ≠ "Invalid API key") :=
  ⟨rfl, rfl, by decide⟩

/-- C1 (amended): on the JSON `request` path, a 401 response yields the
authentication error with the fixed message regardless of body content,
and any other non-success status yields a request-failure error
carrying that status code; on the multipart `ingestFile` path every
non-success status, 401 included, yields a request-failure error
carrying the status code (rewrapped once by the catch block), never the
authentication error. -/
theorem status_error_mapping (c : CueMap) (status : Nat) (body : Except String Json)
    (h : statusOk status = false) :
    (status = 401 →
      c.request (FetchOutcome.response status body) = Except.error ⟨"Invalid API key"⟩) ∧
    (status ≠ 401 →
      c.request (FetchOutcome.response status body) =
        Except.error ⟨"Request failed: " ++ toString status⟩) ∧
    c.ingestTransport (FetchOutcome.response status body) =
      Except.error ⟨"Request failed: CueMapError: Request failed: " ++ toString status⟩ := by
  refine ⟨?_, ?_, ?_⟩
  · intro h401
    subst h401
    simp [CueMap.request, CueMap.requestRun, h]
  · intro hne
    simp [CueMap.request, CueMap.requestRun, h, hne]
  · simp only [CueMap.ingestTransport, CueMap.ingestRun, h, Bool.false_eq_true, if_false,
      CueMapError.toJsString]
    rw [← String.append_assoc, ← String.append_assoc]
    rfl

/-- C1 witness: concrete instance at status 500. -/
theorem status_error_mapping_witness :
    statusOk 500 = false ∧ (500 : Nat) ≠ 401 ∧
    (CueMap.make CueMapConfig.empty).request
        (FetchOutcome.response 500 (Except.ok (Json.obj [("error", Json.str "boom")]))) =
      Except.error ⟨"Request failed: 500"⟩ :=
  ⟨by decide, by decide,
   (status_error_mapping (CueMap.make CueMapConfig.empty) 500
      (Except.ok (Json.obj [("error", Json.str "boom")])) (by decide)).2.1 (by decide)⟩

/-- C2: FALSE as stated.  A timed-out call produces exactly the same
error value as a transport fault whose cause has the abort error string
form: `CueMapError` carries only a message, so the Timeout failure kind
is not distinguishable from the TransportFailure kind by the caller. -/
theorem timeout_error_equals_transport_error :
    (CueMap.make CueMapConfig.empty).request FetchOutcome.timeout =
      (CueMap.make CueMapConfig.empty).request (FetchOutcome.reject abortErrorString) ∧
    (CueMap.make CueMapConfig.empty).request FetchOutcome.timeout =
      Except.error ⟨"Request failed: " ++ abortErrorString⟩ :=
  ⟨rfl, rfl⟩

/-- C2 (amended): when the configured timeout elapses before the remote
responds, the in-flight request is aborted (`controller.abort()` runs)
on both transport paths and the call fails with the single client-error
type `CueMapError` wrapping the abort cause; the authentication failure
(fixed message) and request failures (message carrying the status) have
distinguishable messages, but timeout and transport failures share the
`Request failed: <cause>` form and are not distinguishable as kinds. -/
theorem timeout_aborts_and_fails (c : CueMap) :
    (c.requestRun FetchOutcome.timeout).aborted = true ∧
    (c.requestRun FetchOutcome.timeout).result =
      Except.error ⟨"Request failed: " ++ abortErrorString⟩ ∧
    (c.ingestRun FetchOutcome.timeout).aborted = true ∧
    (c.ingestRun FetchOutcome.timeout).result =
      Except.error ⟨"Request failed: " ++ abortErrorString⟩ ∧
    c.request FetchOutcome.timeout = c.request (FetchOutcome.reject abortErrorString) :=
  ⟨rfl, rfl, rfl, rfl, rfl⟩

/-- Helper: a best-effort operation resolves `ok` for every outcome. -/
theorem runOp_bestEffort_isOk (c : CueMap) (op : Op) (outcome : FetchOutcome)
    (hbe : op.isBestEffort = true) :
    ∃ b : Bool, (c.runOp op outcome).1 = Except.ok (OpValue.bool b) := by
  cases op <;> simp [Op.isBestEffort] at hbe <;>
    refine ⟨(match c.request outcome with
             | Except.ok _ => true
             | Except.error _ => false), ?_⟩ <;>
    rcases hr : c.request outcome with e | j <;>
    simp [CueMap.runOp, hr]

/-- C3: the best-effort operations (reinforce, deleteProject, addAlias,
mergeAliases, lexiconDelete) resolve to the boolean `false` whenever
the underlying request fails and resolve to a boolean (never an error)
on every outcome, while every other operation propagates the client
error of its transport unchanged. -/
theorem best_effort_swallow_others_propagate (c : CueMap) (op : Op)
    (outcome : FetchOutcome) (e : CueMapError)
    (h : c.transportOf op outcome = Except.error e) :
    (op.isBestEffort = true → c.runOp op outcome = (Except.ok (OpValue.bool false), c)) ∧
    (op.isBestEffort = false → (c.runOp op outcome).1 = Except.error e) ∧
    (op.isBestEffort = true →
      ∀ o : FetchOutcome, ∃ b : Bool, (c.runOp op o).1 = Except.ok (OpValue.bool b)) := by
  refine ⟨?_, ?_, fun hbe o => runOp_bestEffort_isOk c op o hbe⟩
  · intro hbe
    cases op <;> simp [Op.isBestEffort] at hbe <;>
      simp only [CueMap.transportOf] at h <;>
      simp [CueMap.runOp, h]
  · intro hnbe
    cases op <;> simp [Op.isBestEffort] at hnbe <;>
      simp only [CueMap.transportOf] at h <;>
      simp [CueMap.runOp, h]

/-- C3 witness: a transport fault makes `reinforce` resolve `false` and
makes `get` propagate the wrapped error. -/
theorem best_effort_swallow_witness :
    (CueMap.make CueMapConfig.empty).transportOf (Op.reinforce "m1" ["a"])
        (FetchOutcome.reject "fetch failed") =
      Except.error ⟨"Request failed: fetch failed"⟩ ∧
    (CueMap.make CueMapConfig.empty).runOp (Op.reinforce "m1" ["a"])
        (FetchOutcome.reject "fetch failed") =
      (Except.ok (OpValue.bool false), CueMap.make CueMapConfig.empty) ∧
    ((CueMap.make CueMapConfig.empty).runOp (Op.get "m1")
        (FetchOutcome.reject "fetch failed")).1 =
      Except.error ⟨"Request failed: fetch failed"⟩ :=
  ⟨rfl,
   (best_effort_swallow_others_propagate (CueMap.make CueMapConfig.empty)
      (Op.reinforce "m1" ["a"]) (FetchOutcome.reject "fetch failed")
      ⟨"Request failed: fetch failed"⟩ rfl).1 rfl,
   (best_effort_swallow_others_propagate (CueMap.make CueMapConfig.empty)
      (Op.get "m1") (FetchOutcome.reject "fetch failed")
      ⟨"Request failed: fetch failed"⟩ rfl).2.1 rfl⟩

/-- C4: on both transport paths and every outcome, the timer-event
trace begins with starting the timer of the configured duration and
leaves no timer pending when the call returns. -/
theorem timer_always_cleared (c : CueMap) (outcome : FetchOutcome) :
    (c.requestRun outcome).timerEvs.head? = some (TimerEv.start c.timeout) ∧
    timerPending (c.requestRun outcome).timerEvs = false ∧
    (c.ingestRun outcome).timerEvs.head? = some (TimerEv.start c.timeout) ∧
    timerPending (c.ingestRun outcome).timerEvs = false := by
  rcases outcome with ⟨status, body⟩ | s | _
  · by_cases hs : statusOk status
    · rcases body with s | j <;>
        simp [CueMap.requestRun, CueMap.ingestRun, timerPending, hs]
    · by_cases h401 : status = 401
      · subst h401
        simp [CueMap.requestRun, CueMap.ingestRun, timerPending, hs]
      · simp [CueMap.requestRun, CueMap.ingestRun, timerPending, hs, h401]
  · simp [CueMap.requestRun, CueMap.ingestRun, timerPending]
  · simp [CueMap.requestRun, CueMap.ingestRun, timerPending]

/-- Helper: one operation leaves the client context unchanged. -/
theorem runOp_preserves_context (c : CueMap) (op : Op) (outcome : FetchOutcome) :
    (c.runOp op outcome).2 = c := by
  cases op <;>
    simp only [CueMap.runOp] <;>
    first
      | (rcases c.request outcome with e | j <;> rfl)
      | (rcases c.ingestTransport outcome with e | j <;> rfl)

/-- A sequence of operations, each run against its own fetch outcome,
threading the client state. -/
def CueMap.runOps (c : CueMap) (calls : List (Op × FetchOutcome)) : CueMap :=
  calls.foldl (fun st call => (st.runOp call.1 call.2).2) c

/-- C9: the client context is immutable: a single operation returns the
context unchanged, hence every sequence of operations leaves the
context equal to its value at construction. -/
theorem context_immutable (c : CueMap) (op : Op) (outcome : FetchOutcome)
    (calls : List (Op × FetchOutcome)) :
    (c.runOp op outcome).2 = c ∧ c.runOps calls = c := by
  refine ⟨runOp_preserves_context c op outcome, ?_⟩
  induction calls generalizing c with
  | nil => rfl
  | cons hd tl ih =>
      show (CueMap.runOp c hd.1 hd.2).2.runOps tl = c
      rw [runOp_preserves_context c hd.1 hd.2]
      exact ih c

/-- C5: FALSE as stated.  The constructor defaults with the JavaScript
`||` operator, which treats the empty string and zero as unset: a
configuration explicitly supplying `url = ""` and `timeout = 0` does
not override the defaults. -/
theorem falsy_config_not_overriding :
    (CueMap.make ⟨some "", none, none, some 0⟩).url = "http://localhost:8080" ∧
    (CueMap.make ⟨some "", none, none, some 0⟩).url ≠ "" ∧
    (CueMap.make ⟨some "", none, none, some 0⟩).timeout = 30000 ∧
    (CueMap.make ⟨some "", none, none, some 0⟩).timeout ≠ 0 :=
  ⟨rfl, by decide, rfl, by decide⟩

/-- C5 (amended): an unset url defaults to `http://localhost:8080` and
an unset timeout to 30000; an explicitly supplied truthy value (a
non-empty url, a non-zero timeout) overrides the default, while a falsy
supplied value (empty-string url, zero timeout) also falls back to the
default; apiKey and projectId are copied as given, so they remain
absent when not supplied. -/
theorem config_resolution (config : CueMapConfig) :
    ((config.url = none ∨ config.url = some "") →
      (CueMap.make config).url = "http://localhost:8080") ∧
    (∀ u, config.url = some u → u ≠ "" → (CueMap.make config).url = u) ∧
    ((config.timeout = none ∨ config.timeout = some 0) →
      (CueMap.make config).timeout = 30000) ∧
    (∀ t, config.timeout = some t → t ≠ 0 → (CueMap.make config).timeout = t) ∧
    (CueMap.make config).apiKey = config.apiKey ∧
    (CueMap.make config).projectId = config.projectId := by
  refine ⟨?_, ?_, ?_, ?_, rfl, rfl⟩
  · rintro (h | h) <;> simp [CueMap.make, truthyStr, h]
  · intro u hu hne
    simp [CueMap.make, truthyStr, hu, hne]
  · rintro (h | h) <;> simp [CueMap.make, truthyNat, h]
  · intro t ht hne
    simp [CueMap.make, truthyNat, ht, hne]

/-- C5 witness: the empty configuration takes both defaults, and a
configuration with a non-empty url and non-zero timeout keeps them. -/
theorem config_resolution_witness :
    (CueMap.make ⟨none, none, none, none⟩).url = "http://localhost:8080" ∧
    (CueMap.make ⟨none, none, none, none⟩).timeout = 30000 ∧
    (CueMap.make ⟨some "http://example.com:9999", none, none, some 5⟩).url =
      "http://example.com:9999" ∧
    (CueMap.make ⟨some "http://example.com:9999", none, none, some 5⟩).timeout = 5 :=
  ⟨(config_resolution ⟨none, none, none, none⟩).1 (Or.inl rfl),
   (config_resolution ⟨none, none, none, none⟩).2.2.1 (Or.inl rfl),
   (config_resolution ⟨some "http://example.com:9999", none, none, some 5⟩).2.1
     "http://example.com:9999" rfl (by decide),
   (config_resolution ⟨some "http://example.com:9999", none, none, some 5⟩).2.2.2.1
     5 rfl (by decide)⟩

/-- C6: the grounding assembly of `retrieveGrounded` is a pure
projection of the decoded response: the context block equals
`verified_context`, the proof is passed through, and the selected
memories are exactly `proof.selected`, with no value alteration. -/
theorem grounding_assembly_pure_projection (r : RecallGroundedResponse) :
    retrieveGrounded (Except.ok r) = Except.ok (retrieveGroundedAssemble r) ∧
    (retrieveGroundedAssemble r).verified_context_block = r.verified_context ∧
    (retrieveGroundedAssemble r).grounding_proof = r.proof ∧
    (retrieveGroundedAssemble r).selected_memories = r.proof.selected :=
  ⟨rfl, rfl, rfl, rfl⟩

/-- C7: FALSE as stated.  A recall body contains exactly three disable
flags (pattern completion, salience bias, systems consolidation); the
fourth disable flag of the SDK, temporal chunking, belongs to `add` and
is never part of a recall body. -/
theorem recall_body_has_three_disable_flags :
    (recallPayload (RecallArgs.withDefaults none (some ["meeting", "john"]) none 10)).map
        Prod.fst =
      ["limit", "auto_reinforce", "explain", "disable_pattern_completion",
       "disable_salience_bias", "disable_systems_consolidation", "cues"] ∧
    Json.lookup (recallPayload (RecallArgs.withDefaults none (some ["meeting", "john"]) none 10))
        "disable_temporal_chunking" = none :=
  ⟨rfl, rfl⟩

/-- C7 (amended): `recall(undefined, ["meeting","john"], undefined, 10)`
produces a body with `cues` equal to the two given strings, no
`query_text` key, and `limit` 10; and for every recall call the three
disable flags of recall default to `false` and are forwarded verbatim
in the body (the fourth disable flag of the SDK, temporal chunking,
belongs to `add`, where it also defaults to `false` and is forwarded
verbatim). -/
theorem recall_scenario_and_disable_flags (a : RecallArgs) (content : String)
    (cues : List String) (metadata : Option (List (String × Json))) (dtc : Bool) :
    Json.lookup (recallPayload (RecallArgs.withDefaults none (some ["meeting", "john"]) none 10))
        "cues" = some (Json.arr [Json.str "meeting", Json.str "john"]) ∧
    Json.lookup (recallPayload (RecallArgs.withDefaults none (some ["meeting", "john"]) none 10))
        "query_text" = none ∧
    Json.lookup (recallPayload (RecallArgs.withDefaults none (some ["meeting", "john"]) none 10))
        "limit" = some (Json.num 10) ∧
    ((RecallArgs.withDefaults a.queryText a.cues a.projects a.limit).disablePatternCompletion
        = false ∧
      (RecallArgs.withDefaults a.queryText a.cues a.projects a.limit).disableSalienceBias
        = false ∧
      (RecallArgs.withDefaults a.queryText a.cues a.projects a.limit).disableSystemsConsolidation
        = false) ∧
    Json.lookup (recallPayload a) "disable_pattern_completion" =
      some (Json.bool a.disablePatternCompletion) ∧
    Json.lookup (recallPayload a) "disable_salience_bias" =
      some (Json.bool a.disableSalienceBias) ∧
    Json.lookup (recallPayload a) "disable_systems_consolidation" =
      some (Json.bool a.disableSystemsConsolidation) ∧
    (match (Op.add content cues metadata dtc).toReq.body with
     | some (Json.obj fields) => Json.lookup fields "disable_temporal_chunking"
     | _ => none) = some (Json.bool dtc) :=
  ⟨rfl, rfl, rfl, ⟨rfl, rfl, rfl⟩, rfl, rfl, rfl, rfl⟩

/-- Helper: what the JSON headers hold under the `X-API-Key` key. -/
theorem lookup_apiKey_getHeaders (c : CueMap) :
    headerLookup c.getHeaders "X-API-Key" =
      (match c.apiKey with
       | some k => if k = "" then none else some k
       | none => none) := by
  obtain ⟨url, apiKey, projectId, tmo⟩ := c
  rcases apiKey with _ | k
  · rcases projectId with _ | p
    · rfl
    · by_cases hp : p = "" <;> simp [CueMap.getHeaders, headerLookup, hp]
  · rcases projectId with _ | p
    · by_cases hk : k = "" <;> simp [CueMap.getHeaders, headerLookup, hk]
    · by_cases hk : k = "" <;> by_cases hp : p = "" <;>
        simp [CueMap.getHeaders, headerLookup, hk, hp]

/-- Helper: what the JSON headers hold under the `X-Project-ID` key. -/
theorem lookup_projectId_getHeaders (c : CueMap) :
    headerLookup c.getHeaders "X-Project-ID" =
      (match c.projectId with
       | some p => if p = "" then none else some p
       | none => none) := by
  obtain ⟨url, apiKey, projectId, tmo⟩ := c
  rcases apiKey with _ | k
  · rcases projectId with _ | p
    · rfl
    · by_cases hp : p = "" <;> simp [CueMap.getHeaders, headerLookup, hp]
  · rcases projectId with _ | p
    · by_cases hk : k = "" <;> simp [CueMap.getHeaders, headerLookup, hk]
    · by_cases hk : k = "" <;> by_cases hp : p = "" <;>
        simp [CueMap.getHeaders, headerLookup, hk, hp]

/-- Helper: the JSON headers always carry the Content-Type entry. -/
theorem lookup_contentType_getHeaders (c : CueMap) :
    headerLookup c.getHeaders "Content-Type" = some "application/json" := rfl

/-- Helper: the multipart headers never carry a Content-Type entry. -/
theorem lookup_contentType_ingestHeaders (c : CueMap) :
    headerLookup c.ingestHeaders "Content-Type" = none := by
  obtain ⟨url, apiKey, projectId, tmo⟩ := c
  rcases apiKey with _ | k
  · rcases projectId with _ | p
    · rfl
    · by_cases hp : p = "" <;>
        simp [CueMap.ingestHeaders, CueMap.getHeaders, headerLookup, hp]
  · rcases projectId with _ | p
    · by_cases hk : k = "" <;>
        simp [CueMap.ingestHeaders, CueMap.getHeaders, headerLookup, hk]
    · by_cases hk : k = "" <;> by_cases hp : p = "" <;>
        simp [CueMap.ingestHeaders, CueMap.getHeaders, headerLookup, hk, hp]

/-- Helper: dropping Content-Type leaves the API key header as is. -/
theorem lookup_apiKey_ingestHeaders (c : CueMap) :
    headerLookup c.ingestHeaders "X-API-Key" = headerLookup c.getHeaders "X-API-Key" := by
  obtain ⟨url, apiKey, projectId, tmo⟩ := c
  rcases apiKey with _ | k
  · rcases projectId with _ | p
    · rfl
    · by_cases hp : p = "" <;>
        simp [CueMap.ingestHeaders, CueMap.getHeaders, headerLookup, hp]
  · rcases projectId with _ | p
    · by_cases hk : k = "" <;>
        simp [CueMap.ingestHeaders, CueMap.getHeaders, headerLookup, hk]
    · by_cases hk : k = "" <;> by_cases hp : p = "" <;>
        simp [CueMap.ingestHeaders, CueMap.getHeaders, headerLookup, hk, hp]

/-- Helper: dropping Content-Type leaves the project header as is. -/
theorem lookup_projectId_ingestHeaders (c : CueMap) :
    headerLookup c.ingestHeaders "X-Project-ID" =
      headerLookup c.getHeaders "X-Project-ID" := by
  obtain ⟨url, apiKey, projectId, tmo⟩ := c
  rcases apiKey with _ | k
  · rcases projectId with _ | p
    · rfl
    · by_cases hp : p = "" <;>
        simp [CueMap.ingestHeaders, CueMap.getHeaders, headerLookup, hp]
  · rcases projectId with _ | p
    · by_cases hk : k = "" <;>
        simp [CueMap.ingestHeaders, CueMap.getHeaders, headerLookup, hk]
    · by_cases hk : k = "" <;> by_cases hp : p = "" <;>
        simp [CueMap.ingestHeaders, CueMap.getHeaders, headerLookup, hk, hp]

/-- C8: `X-API-Key` is attached exactly when an API key is configured
(truthy, as the code tests it) and omitted entirely when absent,
likewise `X-Project-ID`; `Content-Type: application/json` is set on
every JSON request and omitted on the multipart `ingestFile` upload,
which still sends the same remaining headers and starts the same
timeout timer. -/
theorem header_injection_rules (c : CueMap) :
    (∀ k, c.apiKey = some k → k ≠ "" →
      headerLookup c.getHeaders "X-API-Key" = some k) ∧
    ((c.apiKey = none ∨ c.apiKey = some "") →
      headerLookup c.getHeaders "X-API-Key" = none) ∧
    (∀ p, c.projectId = some p → p ≠ "" →
      headerLookup c.getHeaders "X-Project-ID" = some p) ∧
    ((c.projectId = none ∨ c.projectId = some "") →
      headerLookup c.getHeaders "X-Project-ID" = none) ∧
    headerLookup c.getHeaders "Content-Type" = some "application/json" ∧
    headerLookup c.ingestHeaders "Content-Type" = none ∧
    headerLookup c.ingestHeaders "X-API-Key" = headerLookup c.getHeaders "X-API-Key" ∧
    headerLookup c.ingestHeaders "X-Project-ID" = headerLookup c.getHeaders "X-Project-ID" ∧
    (∀ outcome, (c.requestRun outcome).headersSent = c.getHeaders ∧
      (c.ingestRun outcome).headersSent = c.ingestHeaders ∧
      (c.ingestRun outcome).timerEvs.head? = some (TimerEv.start c.timeout)) := by
  refine ⟨?_, ?_, ?_, ?_, lookup_contentType_getHeaders c,
    lookup_contentType_ingestHeaders c, lookup_apiKey_ingestHeaders c,
    lookup_projectId_ingestHeaders c, ?_⟩
  · intro k hk hne
    rw [lookup_apiKey_getHeaders, hk]
    simp [hne]
  · rintro (h | h) <;> rw [lookup_apiKey_getHeaders, h] <;> simp
  · intro p hp hne
    rw [lookup_projectId_getHeaders, hp]
    simp [hne]
  · rintro (h | h) <;> rw [lookup_projectId_getHeaders, h] <;> simp
  · intro outcome
    rcases outcome with ⟨status, body⟩ | s | _
    · by_cases hs : statusOk status
      · rcases body with s | j <;>
          simp [CueMap.requestRun, CueMap.ingestRun, hs]
      · by_cases h401 : status = 401
        · subst h401
          simp [CueMap.requestRun, CueMap.ingestRun, hs]
        · simp [CueMap.requestRun, CueMap.ingestRun, hs, h401]
    · simp [CueMap.requestRun, CueMap.ingestRun]
    · simp [CueMap.requestRun, CueMap.ingestRun]

/-- C8 witness: with an API key and no project configured, the JSON
headers carry the key, no project header, and the multipart headers
drop only Content-Type. -/
theorem header_injection_rules_witness :
    headerLookup (CueMap.make ⟨none, some "secret", none, none⟩).getHeaders "X-API-Key" =
      some "secret" ∧
    headerLookup (CueMap.make ⟨none, some "secret", none, none⟩).getHeaders "X-Project-ID" =
      none ∧
    headerLookup (CueMap.make ⟨none, some "secret", none, none⟩).ingestHeaders "Content-Type" =
      none ∧
    headerLookup (CueMap.make ⟨none, some "secret", none, none⟩).ingestHeaders "X-API-Key" =
      some "secret" :=
  ⟨(header_injection_rules (CueMap.make ⟨none, some "secret", none, none⟩)).1
     "secret" rfl (by decide),
   (header_injection_rules (CueMap.make ⟨none, some "secret", none, none⟩)).2.2.2.1
     (Or.inl rfl),
   (header_injection_rules (CueMap.make ⟨none, some "secret", none, none⟩)).2.2.2.2.2.1,
   ((header_injection_rules (CueMap.make ⟨none, some "secret", none, none⟩)).2.2.2.2.2.2.1).trans
     ((header_injection_rules (CueMap.make ⟨none, some "secret", none, none⟩)).1
        "secret" rfl (by decide))⟩

/-- C10: `recall` validates nothing locally: for every argument
combination the built request goes to POST /recall with the assembled
payload, the `query_text` key is absent exactly when `queryText` is
undefined or the empty string, the `cues` key is absent exactly when
`cues` is undefined, and any error the call reports is exactly a
transport error (none arises before the network call). -/
theorem recall_no_local_validation (a : RecallArgs) (c : CueMap) :
    (Op.recall a).toReq = ⟨"POST", "/recall", some (Json.obj (recallPayload a))⟩ ∧
    (Json.lookup (recallPayload a) "query_text" = none ↔
      (a.queryText = none ∨ a.queryText = some "")) ∧
    (Json.lookup (recallPayload a) "cues" = none ↔ a.cues = none) ∧
    (∀ outcome e, (c.runOp (Op.recall a) outcome).1 = Except.error e →
      c.request outcome = Except.error e) := by
  obtain ⟨qt, cs, prj, lim, ar, mi, ex, dpc, dsb, dsc⟩ := a
  refine ⟨rfl, ?_, ?_, ?_⟩
  · rcases qt with _ | q
    · rcases cs with _ | csl <;> rcases mi with _ | m <;> rcases prj with _ | ps <;>
        simp [recallPayload, Json.lookup]
    · by_cases hq : q = "" <;>
        rcases cs with _ | csl <;> rcases mi with _ | m <;> rcases prj with _ | ps <;>
        simp_all [recallPayload, Json.lookup]
  · rcases cs with _ | csl
    · rcases qt with _ | q
      · rcases mi with _ | m <;> rcases prj with _ | ps <;>
          simp [recallPayload, Json.lookup]
      · by_cases hq : q = "" <;>
          rcases mi with _ | m <;> rcases prj with _ | ps <;>
          simp_all [recallPayload, Json.lookup]
    · rcases qt with _ | q
      · rcases mi with _ | m <;> rcases prj with _ | ps <;>
          simp [recallPayload, Json.lookup]
      · by_cases hq : q = "" <;>
          rcases mi with _ | m <;> rcases prj with _ | ps <;>
          simp_all [recallPayload, Json.lookup]
  · intro outcome e h
    rcases hr : c.request outcome with e2 | j <;>
      simp [CueMap.runOp, hr] at h <;> simp [h]

/-- C10 witness: a transport fault on a recall with empty query text
and no cues surfaces exactly the transport error. -/
theorem recall_no_local_validation_witness :
    ((CueMap.make CueMapConfig.empty).runOp
        (Op.recall (RecallArgs.withDefaults (some "") none none 10))
        (FetchOutcome.reject "refused")).1 =
      Except.error ⟨"Request failed: refused"⟩ ∧
    (CueMap.make CueMapConfig.empty).request (FetchOutcome.reject "refused") =
      Except.error ⟨"Request failed: refused"⟩ ∧
    Json.lookup (recallPayload (RecallArgs.withDefaults (some "") none none 10))
        "query_text" = none :=
  ⟨rfl,
   (recall_no_local_validation (RecallArgs.withDefaults (some "") none none 10)
      (CueMap.make CueMapConfig.empty)).2.2.2 (FetchOutcome.reject "refused")
     ⟨"Request failed: refused"⟩ rfl,
   (recall_no_local_validation (RecallArgs.withDefaults (some "") none none 10)
      (CueMap.make CueMapConfig.empty)).2.1.mpr (Or.inr rfl)⟩
